import Mathlib

/-!
Shallow embedding of the `re-fetch` request engine (`createSafeFetch`):
the attempt loop with retries, retry-on-success, timeout classification,
single-flight token refresh, error mapping, the response cache phase and
request-header preparation, together with proofs about the engine's
observable behaviour.

JS numbers are modelled as `ℕ` where the source only compares and stores
integral millisecond values, and as `ℚ` in the backoff-delay computation
(where `Math.random()` and `0.2` occur); `Math.round` is Mathlib's `round`
(both compute `⌊x + 1/2⌋`).  `undefined` / absent object properties are
modelled as `Option.none`.
-/

namespace ReFetch

/-- HTTP method (`types.ts`). -/
inductive HttpMethod
  | GET | POST | PUT | PATCH | DELETE | HEAD
deriving DecidableEq, Repr

/-- A JS exception value; only its `name` (e.g. `"AbortError"`) and message
are observable to the engine. -/
structure Exc where
  name : String
  message : String
deriving DecidableEq, Repr

/-- The slice of a fetch `Response` the engine reads: numeric status and
status text.  `res.ok` is derived, as in the fetch standard. -/
structure Resp where
  status : ℕ
  statusText : String
deriving DecidableEq, Repr

/-- Embedding of `res.ok`: status in the inclusive range [200, 299]. -/
def Resp.okFlag (r : Resp) : Bool :=
  decide (200 ≤ r.status) && decide (r.status ≤ 299)

/-- A normalized error object (`errors.ts`).  The JS values are plain
records; optional fields that a given constructor does not set are absent
(`none`).  `V` is the type of parsed response bodies. -/
structure NormalizedError (V : Type) where
  name : String
  message : String
  cause? : Option Exc := none
  timeoutMs? : Option ℕ := none
  status? : Option ℕ := none
  statusText? : Option String := none
  body? : Option V := none
deriving DecidableEq, Repr

/-- Embedding of `networkError(cause)` from `errors.ts`. -/
def networkError (V : Type) (cause : Exc) : NormalizedError V :=
  { name := "NetworkError", message := "Network request failed", cause? := some cause }

/-- Embedding of `timeoutError(timeoutMs, cause)` from `errors.ts`. -/
def timeoutError (V : Type) (timeoutMs : ℕ) (cause : Exc) : NormalizedError V :=
  { name := "TimeoutError"
    message := "Request timed out after " ++ toString timeoutMs ++ " ms"
    timeoutMs? := some timeoutMs
    cause? := some cause }

/-- Embedding of `httpError(res, body)` from `errors.ts`. -/
def httpError (res : Resp) (body : V) : NormalizedError V :=
  { name := "HttpError"
    message := "HTTP " ++ toString res.status ++ " " ++ res.statusText
    status? := some res.status
    statusText? := some res.statusText
    body? := some body }

/-- The tagged result value returned to callers (`SafeResult` in
`types.ts`).  JS returns plain records `{ok, data?, error?, response?}`;
fields a return site does not mention are absent. -/
structure SafeResult (V : Type) where
  ok : Bool
  data? : Option V := none
  error? : Option (NormalizedError V) := none
  response? : Option Resp := none
deriving DecidableEq, Repr

/-- The context record handed to a custom `retryOn` predicate:
`{ attempt, ...ctx }` where the call sites spread `{response}`, `{error}`
or `{response, data}`. -/
structure RetryCtx (V : Type) where
  attempt : ℕ
  error? : Option (NormalizedError V) := none
  response? : Option Resp := none
  data? : Option V := none

/-- A retry configuration (`RetryStrategy` in `types.ts`, the non-`false`
alternative): `times`, optional delays and an optional custom predicate. -/
structure RetryConfig (V : Type) where
  times : ℕ
  baseDelayMs? : Option ℚ := none
  maxDelayMs? : Option ℚ := none
  retryOn? : Option (RetryCtx V → Bool) := none

/-- The budget-free part of `shouldRetry`: the custom predicate if one is
supplied, otherwise the default classification (Network/Timeout errors, or
responses with status ≥ 500 or 429). -/
def retryClassify (rc : RetryConfig V) (ctx : RetryCtx V) : Bool :=
  match rc.retryOn? with
  | some p => p ctx
  | none =>
    match ctx.error? with
    | some err => err.name == "NetworkError" || err.name == "TimeoutError"
    | none =>
      match ctx.response? with
      | some res => decide (500 ≤ res.status) || decide (res.status = 429)
      | none => false

/-- Embedding of `shouldRetry(cfg, attempt, ctx)` from `createSafeFetch`: the hard stop
`attempt >= cfg.times` is checked first, then the custom predicate, then
the default classification. -/
def shouldRetry (rc : RetryConfig V) (attempt : ℕ) (ctx : RetryCtx V) : Bool :=
  if rc.times ≤ attempt then false
  else retryClassify rc ctx

/-- Embedding of `backoffDelay(attempt, cfg)` from `utils.ts`, with `Math.random()`
made explicit as the parameter `rand ∈ [0, 1)`:
`raw = min(maxDelayMs ?? 2000, (baseDelayMs ?? 300) * 2^(attempt-1))`,
`jitter = rand * (raw * 0.2)`, result `Math.round(raw + jitter)`. -/
def backoffDelay (attempt : ℕ) (rc : RetryConfig V) (rand : ℚ) : ℤ :=
  let base := rc.baseDelayMs?.getD 300
  let max := rc.maxDelayMs?.getD 2000
  let raw := min max (base * 2 ^ (attempt - 1))
  let jitter := rand * (raw * (2 / 10))
  round (raw + jitter)

/-- A value returned by a caller-supplied `errorMap`, as seen through
`isNormalizedError` (`errors.ts`): either a record with `name` and
`message` fields — a normalized-error shape — or anything else. -/
inductive MapVal (V : Type)
  | errShape (e : NormalizedError V)
  | nonError

/-- Embedding of `isNormalizedError(e)`: true exactly for values with the
normalized-error record shape. -/
def isNormalizedError : MapVal V → Bool
  | .errShape _ => true
  | .nonError => false

/-- Behaviour of one invocation of a caller-supplied `errorMap` function:
it either returns a value or throws. -/
inductive MapBehavior (V : Type)
  | ret (v : MapVal V)
  | thrown (e : Exc)

/-- Embedding of `mapError(e)` from `createSafeFetch`: with no `errorMap` the error
passes through; otherwise the mapper is called inside `try`/`catch` and
its result is used only when `isNormalizedError` accepts it — a throwing
mapper or a non-error return leaves the original error unchanged. -/
def mapError (errorMap? : Option (NormalizedError V → MapBehavior V))
    (e : NormalizedError V) : NormalizedError V :=
  match errorMap? with
  | none => e
  | some f =>
    match f e with
    | .ret out => if isNormalizedError out then (match out with | .errShape e' => e' | .nonError => e) else e
    | .thrown _ => e

/-! ## The attempt loop (`attemptFetch` inside `core`)

The loop is driven by an environment: one `AttemptEnv` per transport
attempt records what the outside world did during that attempt (whether
the external signal had fired, whether the total deadline had elapsed,
what `fetch` produced, which timeout flags were set when an exception was
caught, and how a pending token refresh behaved).  The model is a fuel-
style function: the run either returns a `SafeResult`, rejects with an
uncaught exception, or exhausts the supplied environment list. -/

/-- What the awaited `fetch` (raced against the abort promise) produced:
a `Response` whose body parsed to `parsed`, or a rejection. -/
inductive FetchOutcome (V : Type)
  | resolve (res : Resp) (parsed : V)
  | reject (e : Exc)

/-- The environment of a single attempt. -/
structure AttemptEnv (V : Type) where
  /-- value of `isAborted()` at the top of the attempt -/
  abortedAtStart : Bool := false
  /-- value of `Date.now() - startedAt >= totalTimeout` at the top of the attempt -/
  exceededTotal : Bool := false
  /-- what the transport call produced -/
  outcome : FetchOutcome V
  /-- value of `isAborted()` re-read at the retry decisions -/
  abortedAfter : Bool := false
  /-- the `totalTimedOut` flag when an exception is caught -/
  totalTimedOutFlag : Bool := false
  /-- this attempt's own `attemptTimedOut` flag when an exception is caught -/
  attemptTimedOutFlag : Bool := false
  /-- was `refreshPromise` non-null when a refresh was needed -/
  refreshInFlight : Bool := false
  /-- did the awaited refresh operation reject -/
  refreshRejects : Bool := false
  /-- the rejection reason of a rejecting refresh -/
  refreshError : Exc := ⟨"Error", "Refresh failed"⟩

/-- The per-call configuration the attempt loop reads.  Interceptors'
`onRequest`/`onResponse` are modelled as returning normally; the error
observer `onError` may throw (`onErrorThrow?`), since it alone runs on
every failure path. -/
structure EngineCfg (V : Type) where
  method : HttpMethod := .GET
  retries? : Option (RetryConfig V) := none
  perAttemptTimeout : ℕ := 0
  totalTimeout : ℕ := 0
  errorMap? : Option (NormalizedError V → MapBehavior V) := none
  onErrorThrow? : Option Exc := none
  refreshConfigured : Bool := false
  shouldRefreshToken? : Option (Resp → Bool) := none

/-- How one engine run ends: a returned tagged result, a promise
rejection (an exception escaping `core`), or exhaustion of the modelled
environment. -/
inductive RunOutcome (V : Type)
  | returned (r : SafeResult V)
  | rejected (e : Exc)
  | envsExhausted
deriving DecidableEq, Repr

/-- Embedding of `new DOMException('Aborted', 'AbortError')`. -/
def abortExc : Exc := ⟨"AbortError", "Aborted"⟩

/-- Embedding of `new Error('Total timeout exceeded')`. -/
def totalTimeoutExc : Exc := ⟨"Error", "Total timeout exceeded"⟩

/-- The `catch` block's classification of a caught exception `e`:
an abort while `totalTimedOut` is a total timeout; otherwise an abort
while a per-attempt timeout is configured and this attempt's timer fired
is a per-attempt timeout; anything else is a network error carrying `e`. -/
def classifyException (cfg : EngineCfg V) (e : Exc)
    (totalTimedOut attemptTimedOut : Bool) : NormalizedError V :=
  if e.name == "AbortError" then
    if totalTimedOut then timeoutError V cfg.totalTimeout e
    else if decide (cfg.perAttemptTimeout ≠ 0) && attemptTimedOut then
      timeoutError V cfg.perAttemptTimeout e
    else networkError V e
  else networkError V e

/-- Embedding of `retries && !isAborted() && shouldRetry(retries, attempt, ctx)` —
the guard at the failure-retry sites. -/
def retryAllowed (cfg : EngineCfg V) (env : AttemptEnv V) (attempt : ℕ)
    (ctx : RetryCtx V) : Bool :=
  match cfg.retries? with
  | none => false
  | some rc => !env.abortedAfter && shouldRetry rc attempt ctx

/-- Embedding of `retries && !isAborted() && retries.retryOn && shouldRetry(retries,
attempt, { response: res, data: parsed })` — the retry-on-success guard. -/
def successRetry (cfg : EngineCfg V) (env : AttemptEnv V) (attempt : ℕ)
    (res : Resp) (parsed : V) : Bool :=
  match cfg.retries? with
  | none => false
  | some rc =>
    !env.abortedAfter && rc.retryOn?.isSome &&
      shouldRetry rc attempt ⟨attempt, none, some res, some parsed⟩

/-- An error return site that is *outside* the attempt's `try` block (the
two short-circuits at the top of `attemptFetch`): `mapError` then `await
onError` then `return {ok:false, error}` — an exception thrown by the
error observer propagates out of `core` (its outer `try`/`finally` only
clears the timer), rejecting the returned promise. -/
def finishErrTop (cfg : EngineCfg V) (err : NormalizedError V)
    (res? : Option Resp) : RunOutcome V × ℕ :=
  let mapped := mapError cfg.errorMap? err
  match cfg.onErrorThrow? with
  | some e => (.rejected e, 0)
  | none => (.returned { ok := false, error? := some mapped, response? := res? }, 0)

/-- The `catch (e)` block: classify, retry when allowed (the supplied
`retryCont` is the recursive continuation `attemptFetch(attempt + 1)`),
otherwise `mapError`, `await onError`, `return {ok:false, error}`.  An
exception thrown by the error observer here is *inside* the catch block
and therefore propagates, rejecting the promise. -/
def handleCatchWith (cfg : EngineCfg V) (env : AttemptEnv V) (attempt : ℕ)
    (retryCont : RunOutcome V × ℕ) (e : Exc) : RunOutcome V × ℕ :=
  let baseErr := classifyException cfg e env.totalTimedOutFlag env.attemptTimedOutFlag
  if retryAllowed cfg env attempt ⟨attempt, some baseErr, none, none⟩ then retryCont
  else
    let mapped := mapError cfg.errorMap? baseErr
    match cfg.onErrorThrow? with
    | some e2 => (.rejected e2, 0)
    | none => (.returned { ok := false, error? := some mapped }, 0)

/-- An error return site *inside* the attempt's `try` block (terminal
HTTP failure and the refresh-starter failure): `mapError`, `await
onError`, `return {ok:false, error, response}`.  An exception thrown by
the error observer here is caught by the attempt's own `catch` block,
which re-classifies it. -/
def finishInTryWith (cfg : EngineCfg V) (env : AttemptEnv V) (attempt : ℕ)
    (retryCont : RunOutcome V × ℕ) (err : NormalizedError V)
    (res? : Option Resp) : RunOutcome V × ℕ :=
  let mapped := mapError cfg.errorMap? err
  match cfg.onErrorThrow? with
  | some e2 => handleCatchWith cfg env attempt retryCont e2
  | none => (.returned { ok := false, error? := some mapped, response? := res? }, 0)

/-- Embedding of `shouldRefresh`: `base.refreshToken && !isRefreshRetry &&
(base.shouldRefreshToken ? base.shouldRefreshToken(res) : res.status === 401)`. -/
def refreshTrigger (cfg : EngineCfg V) (irr : Bool) (res : Resp) : Bool :=
  cfg.refreshConfigured && !irr &&
    (match cfg.shouldRefreshToken? with
     | some p => p res
     | none => decide (res.status = 401))

/-- The attempt loop `attemptFetch`, with `isRefreshRetry` (`irr`) from the
enclosing `core` call.  Returns the run outcome paired with the number of
transport invocations performed.  A refresh settling successfully
re-invokes `core(url, init, true)`, which re-enters the loop at attempt 1
with the refresh-retry flag set; a rejecting refresh is caught at the
starter (returning the original HTTP failure) but propagates into the
attempt's `catch` block at a joiner. -/
def attemptFetch (cfg : EngineCfg V) :
    List (AttemptEnv V) → ℕ → Bool → RunOutcome V × ℕ
  | [], _, _ => (.envsExhausted, 0)
  | env :: rest, attempt, irr =>
    if env.abortedAtStart then
      finishErrTop cfg (networkError V abortExc) none
    else if decide (cfg.totalTimeout ≠ 0) && env.exceededTotal then
      finishErrTop cfg (timeoutError V cfg.totalTimeout totalTimeoutExc) none
    else
      let step : RunOutcome V × ℕ :=
        match env.outcome with
        | .reject e =>
          handleCatchWith cfg env attempt (attemptFetch cfg rest (attempt + 1) irr) e
        | .resolve res parsed =>
          if !res.okFlag then
            if refreshTrigger cfg irr res then
              if env.refreshInFlight then
                if env.refreshRejects then
                  handleCatchWith cfg env attempt
                    (attemptFetch cfg rest (attempt + 1) irr) env.refreshError
                else attemptFetch cfg rest 1 true
              else
                if env.refreshRejects then
                  finishInTryWith cfg env attempt
                    (attemptFetch cfg rest (attempt + 1) irr) (httpError res parsed) (some res)
                else attemptFetch cfg rest 1 true
            else if retryAllowed cfg env attempt ⟨attempt, none, some res, none⟩ then
              attemptFetch cfg rest (attempt + 1) irr
            else
              finishInTryWith cfg env attempt
                (attemptFetch cfg rest (attempt + 1) irr) (httpError res parsed) (some res)
          else if successRetry cfg env attempt res parsed then
            attemptFetch cfg rest (attempt + 1) irr
          else
            (.returned { ok := true, data? := some parsed, response? := some res }, 0)
      (step.1, step.2 + 1)

/-! ## The response cache phase of `core` -/

/-- Embedding of `Map.prototype.get` on an insertion-ordered string-keyed map. -/
def mapGet (m : List (String × α)) (k : String) : Option α :=
  (m.find? (fun kv => kv.1 == k)).map (·.2)

/-- Embedding of `Map.prototype.delete`. -/
def mapDelete (m : List (String × α)) (k : String) : List (String × α) :=
  m.filter (fun kv => kv.1 != k)

/-- A stored cache entry (`CacheEntry` in the engine): the parsed data,
the raw response and the storage timestamp. -/
structure CacheEntry (V : Type) where
  data : V
  response : Resp
  timestamp : ℕ
deriving DecidableEq, Repr

/-- The `cached` request option: an optional time-to-live in
milliseconds (`init.cached.cacheTime ?? Infinity`: absence means the
entry never expires). -/
structure CacheCfg where
  cacheTime? : Option ℕ := none
deriving DecidableEq, Repr

/-- Wire name of the method, used to build the cache key. -/
def HttpMethod.str : HttpMethod → String
  | .GET => "GET" | .POST => "POST" | .PUT => "PUT"
  | .PATCH => "PATCH" | .DELETE => "DELETE" | .HEAD => "HEAD"

/-- The cache key for a call. -/
def cacheKeyOf (method : HttpMethod) (targetUrl : String) : String :=
  method.str ++ ":" ++ targetUrl

/-- The cache lookup performed at the top of `core` (before the attempt
loop starts), returning the value handed to the caller's `onValue`
callback (if any) and the cache after the lookup:  skipped entirely when
no `cached` option is given or this is a refresh retry; a present entry
with `now - timestamp < cacheTime` fires the callback and leaves the
cache unchanged; an expired entry is deleted and nothing is surfaced. -/
def cachePhase (cached? : Option CacheCfg) (irr : Bool)
    (cache : List (String × CacheEntry V)) (key : String) (now : ℕ) :
    Option V × List (String × CacheEntry V) :=
  match cached? with
  | none => (none, cache)
  | some cc =>
    if irr then (none, cache)
    else
      match mapGet cache key with
      | none => (none, cache)
      | some entry =>
        let isValid : Bool :=
          match cc.cacheTime? with
          | none => true
          | some t => decide ((now : ℤ) - (entry.timestamp : ℤ) < (t : ℤ))
        if isValid then (some entry.data, cache)
        else (none, mapDelete cache key)

/-- Embedding of `core` for a non-refresh-retry invocation: the composition of the
cache phase followed by the attempt loop: the stale-value emission, the
cache after lookup, and the loop's run outcome. -/
def coreModel (cfg : EngineCfg V) (cached? : Option CacheCfg)
    (cache : List (String × CacheEntry V)) (targetUrl : String) (now : ℕ)
    (envs : List (AttemptEnv V)) :
    Option V × List (String × CacheEntry V) × (RunOutcome V × ℕ) :=
  let looked := cachePhase cached? false cache (cacheKeyOf cfg.method targetUrl) now
  (looked.1, looked.2, attemptFetch cfg envs 1 false)

/-! ## Request-body and Content-Type preparation -/

/-- The JS value supplied as `init.body`: absent (`undefined`), `null`,
a string, a `FormData` instance, or any other object. -/
inductive BodyVal (V : Type)
  | undef
  | nullv
  | str (s : String)
  | formData
  | obj (v : V)
deriving DecidableEq, Repr

/-- Embedding of `init.body && typeof init.body === 'object' && !(init.body instanceof
FormData)`: `null` is falsy, strings fail the `typeof` test, `FormData`
is excluded; any other object passes. -/
def BodyVal.isPlainObject : BodyVal V → Bool
  | .obj _ => true
  | _ => false

/-- Embedding of `init.body !== undefined`. -/
def BodyVal.isDefined : BodyVal V → Bool
  | .undef => false
  | _ => true

/-- Embedding of `k.toLowerCase()` on a header key, character by character. -/
def lowerStr (s : String) : String := ⟨s.data.map Char.toLower⟩

/-- Embedding of the check `Object.keys(h).some(k => k.toLowerCase() === 'content-type')`. -/
def hasContentType (h : List (String × String)) : Bool :=
  h.any (fun kv => lowerStr kv.1 == "content-type")

/-- The body/header preparation step of an attempt: when a defined body
is sent with a non-GET/HEAD method it is attached, and for a plain object
body a `Content-Type: application/json` header is added unless one
already exists under case-insensitive comparison.  Returns the final
header list and whether a body was attached. -/
def applyBodyHeaders (method : HttpMethod) (body : BodyVal V)
    (headers : List (String × String)) : List (String × String) × Bool :=
  if body.isDefined && decide (method ≠ HttpMethod.GET) &&
      decide (method ≠ HttpMethod.HEAD) then
    let headers' :=
      if body.isPlainObject then
        if hasContentType headers then headers
        else headers ++ [("Content-Type", "application/json")]
      else headers
    (headers', true)
  else (headers, false)

/-! ## Helper predicates for the theorems -/

/-- Exactly one of the success data and the error is populated: an
`ok = true` result carries data and a response and no error, an
`ok = false` result carries an error and no data. -/
def exclusiveResult (r : SafeResult V) : Prop :=
  (r.ok = true ∧ r.data?.isSome = true ∧ r.error? = none ∧ r.response?.isSome = true) ∨
  (r.ok = false ∧ r.error?.isSome = true ∧ r.data? = none)

/-- The attempt's outcome is classified as retryable, ignoring the
attempt budget: for an exception, the budget-free decision on the
classified error; for a non-2xx response, the budget-free decision on the
response; for a 2xx response, a configured custom predicate accepting the
parsed data. -/
def budgetlessRetryable (cfg : EngineCfg V) (rc : RetryConfig V)
    (attempt : ℕ) (env : AttemptEnv V) : Bool :=
  match env.outcome with
  | .reject e =>
    retryClassify rc ⟨attempt,
      some (classifyException cfg e env.totalTimedOutFlag env.attemptTimedOutFlag), none, none⟩
  | .resolve res parsed =>
    if !res.okFlag then retryClassify rc ⟨attempt, none, some res, none⟩
    else rc.retryOn?.isSome && retryClassify rc ⟨attempt, none, some res, some parsed⟩

/-- The attempt runs under normal conditions: no external abort and no
elapsed total deadline. -/
def cleanEnv (env : AttemptEnv V) : Bool :=
  !env.abortedAtStart && !env.exceededTotal && !env.abortedAfter

/-- Every environment in the list is clean and its outcome classified as
retryable at its (1-based) attempt index. -/
def allRetryable (cfg : EngineCfg V) (rc : RetryConfig V) :
    ℕ → List (AttemptEnv V) → Bool
  | _, [] => true
  | a, env :: rest =>
    cleanEnv env && budgetlessRetryable cfg rc a env && allRetryable cfg rc (a + 1) rest

/-- The run returned a tagged result (as opposed to rejecting or running
out of modelled environment). -/
def isReturned : RunOutcome V → Bool
  | .returned _ => true
  | _ => false

/-! ## Concrete instances -/

/-- A 200 OK response. -/
def respOK : Resp := ⟨200, "OK"⟩

/-- A 503 response. -/
def resp503 : Resp := ⟨503, "Service Unavailable"⟩

/-- A 401 response. -/
def resp401 : Resp := ⟨401, "Unauthorized"⟩

/-- An engine configuration with all defaults. -/
def plainCfg : EngineCfg String := {}

/-- Retries configured with `times = 2` and no custom predicate. -/
def retry2Cfg : EngineCfg String := { retries? := some { times := 2 } }

/-- A POST call with `times = 2` and no custom predicate. -/
def postCfg503 : EngineCfg String := { method := .POST, retries? := some { times := 2 } }

/-- An attempt whose transport call resolves with a 503. -/
def env503 : AttemptEnv String := { outcome := .resolve resp503 "busy" }

/-- An attempt whose transport call resolves 200 with the given parsed body. -/
def okEnv (s : String) : AttemptEnv String := { outcome := .resolve respOK s }

/-- The polling predicate `({data}) => data?.status === "pending"`, for
bodies modelled as their status string. -/
def pendingPred : RetryCtx String → Bool := fun ctx => ctx.data? == some "pending"

/-- Retries `{times: 5, retryOn: pendingPred}`. -/
def pollCfg : EngineCfg String :=
  { retries? := some { times := 5, retryOn? := some pendingPred } }

/-- The exception thrown by a misbehaving observer hook. -/
def hookExc : Exc := ⟨"Error", "observer hook threw"⟩

/-- An engine whose error observer throws `hookExc` whenever invoked. -/
def cfgThrowingHook : EngineCfg String := { onErrorThrow? := some hookExc }

/-- An attempt that finds the external signal already aborted. -/
def abortedEnv : AttemptEnv String := { abortedAtStart := true, outcome := .reject abortExc }

/-- An error-mapping function that always throws. -/
def throwingMap : NormalizedError String → MapBehavior String := fun _ => .thrown hookExc

/-- An engine with a refresh operation configured (default 401 trigger). -/
def refreshCfg : EngineCfg String := { refreshConfigured := true }

/-- An attempt receiving a 401 that joins an in-flight refresh which rejects. -/
def joinEnv401 : AttemptEnv String :=
  { outcome := .resolve resp401 "denied", refreshInFlight := true, refreshRejects := true }

/-- An attempt receiving a 401 that starts a refresh which rejects. -/
def startEnv401 : AttemptEnv String :=
  { outcome := .resolve resp401 "denied", refreshRejects := true }

/-- A stored cache entry with value `"a"`. -/
def entryA : CacheEntry String := ⟨"a", respOK, 1000⟩

/-- An engine with the given per-attempt and total timeouts. -/
def timeoutCfg (pa tot : ℕ) : EngineCfg String :=
  { perAttemptTimeout := pa, totalTimeout := tot }

/-- An attempt whose transport call rejects with `e`, with the given
timeout flags observed at the catch site. -/
def rejEnv (e : Exc) (tt at_ : Bool) : AttemptEnv String :=
  { outcome := .reject e, totalTimedOutFlag := tt, attemptTimedOutFlag := at_ }

/-! ## Theorems -/

/-- Claim C6, counterexample: with the default base delay 300 and default
max delay 2000, at attempt index 4 and `Math.random() = 1/2` the computed
delay is 2200, which exceeds the configured max delay 2000 — so the
computed delay is not always ≤ the max delay as the claim states. -/
theorem backoffDelay_exceeds_cap :
    (0 ≤ (1 / 2 : ℚ) ∧ (1 / 2 : ℚ) < 1) ∧
    backoffDelay 4 ({ times := 5 } : RetryConfig Unit) (1 / 2) = 2200 ∧
    ¬ backoffDelay 4 ({ times := 5 } : RetryConfig Unit) (1 / 2) ≤ 2000 := by
  refine ⟨by norm_num, ?_, ?_⟩ <;> norm_num [backoffDelay, round_eq]

/-- Claim C6, amended: the computed delay equals
`round(raw + rand · 0.2 · raw)` for `raw = min(maxDelay, baseDelay · 2^(i-1))`
and `rand ∈ [0, 1)`, so it is bounded by `round(1.2 · maxDelay)` — the
jitter can push it up to 20 % *above* the configured max delay, not only
up to the max delay — and the un-jittered component `raw` is
non-decreasing in the attempt index. -/
theorem backoffDelay_capped_and_monotone (rc : RetryConfig Unit) (i : ℕ) (rand : ℚ)
    (_h0 : 0 ≤ rand) (h1 : rand < 1)
    (hb : 0 ≤ rc.baseDelayMs?.getD 300) (hm : 0 ≤ rc.maxDelayMs?.getD 2000) :
    backoffDelay i rc rand ≤
      round (rc.maxDelayMs?.getD 2000 + rc.maxDelayMs?.getD 2000 * (2 / 10)) ∧
    min (rc.maxDelayMs?.getD 2000) (rc.baseDelayMs?.getD 300 * 2 ^ (i - 1)) ≤
      min (rc.maxDelayMs?.getD 2000) (rc.baseDelayMs?.getD 300 * 2 ^ ((i + 1) - 1)) := by
  set B := rc.baseDelayMs?.getD 300 with hB
  set M := rc.maxDelayMs?.getD 2000 with hM
  have hpow : (0 : ℚ) ≤ B * 2 ^ (i - 1) := by positivity
  have hraw0 : (0 : ℚ) ≤ min M (B * 2 ^ (i - 1)) := le_min hm hpow
  have hrawM : min M (B * 2 ^ (i - 1)) ≤ M := min_le_left _ _
  constructor
  · have hj : rand * (min M (B * 2 ^ (i - 1)) * (2 / 10)) ≤
        min M (B * 2 ^ (i - 1)) * (2 / 10) :=
      mul_le_of_le_one_left (by positivity) h1.le
    have hsum : min M (B * 2 ^ (i - 1)) + rand * (min M (B * 2 ^ (i - 1)) * (2 / 10)) ≤
        M + M * (2 / 10) := by nlinarith
    simp only [backoffDelay, ← hB, ← hM, round_eq]
    exact Int.floor_mono (by linarith)
  · refine min_le_min le_rfl ?_
    have h2 : (2 : ℚ) ^ (i - 1) ≤ 2 ^ ((i + 1) - 1) := by
      apply pow_le_pow_right₀ (by norm_num)
      omega
    nlinarith

/-- Claim C6, witness for the amended theorem at attempt 3 and
`rand = 1/2` with the default delays. -/
theorem backoffDelay_capped_and_monotone_witness :
    backoffDelay 3 ({ times := 5 } : RetryConfig Unit) (1 / 2) ≤
      round ((({ times := 5 } : RetryConfig Unit).maxDelayMs?.getD 2000) +
        ({ times := 5 } : RetryConfig Unit).maxDelayMs?.getD 2000 * (2 / 10)) ∧
    min (({ times := 5 } : RetryConfig Unit).maxDelayMs?.getD 2000)
        (({ times := 5 } : RetryConfig Unit).baseDelayMs?.getD 300 * 2 ^ (3 - 1)) ≤
      min (({ times := 5 } : RetryConfig Unit).maxDelayMs?.getD 2000)
        (({ times := 5 } : RetryConfig Unit).baseDelayMs?.getD 300 * 2 ^ ((3 + 1) - 1)) :=
  backoffDelay_capped_and_monotone { times := 5 } 3 (1 / 2)
    (by norm_num) (by norm_num) (by norm_num) (by norm_num)

/-- Claim C8: when an attempt ends with an exception and no retry applies,
an abort exception while the total-deadline flag has fired yields a
Timeout carrying the configured total timeout; an abort while a
per-attempt timeout is configured and that attempt's own timer flag has
fired (total not fired) yields a Timeout carrying the per-attempt
timeout; any other abort or transport exception yields a Network error
carrying the original exception as its cause. -/
theorem abort_classification (pa tot : ℕ) (e : Exc) (tt at_ : Bool) :
    (e.name = "AbortError" → tt = true →
      attemptFetch (timeoutCfg pa tot) [rejEnv e tt at_] 1 false =
        (.returned { ok := false, error? := some (timeoutError String tot e) }, 1)) ∧
    (e.name = "AbortError" → tt = false → pa ≠ 0 → at_ = true →
      attemptFetch (timeoutCfg pa tot) [rejEnv e tt at_] 1 false =
        (.returned { ok := false, error? := some (timeoutError String pa e) }, 1)) ∧
    (e.name ≠ "AbortError" →
      attemptFetch (timeoutCfg pa tot) [rejEnv e tt at_] 1 false =
        (.returned { ok := false, error? := some (networkError String e) }, 1)) ∧
    (e.name = "AbortError" → tt = false → (pa = 0 ∨ at_ = false) →
      attemptFetch (timeoutCfg pa tot) [rejEnv e tt at_] 1 false =
        (.returned { ok := false, error? := some (networkError String e) }, 1)) ∧
    (networkError String e).cause? = some e ∧
    (timeoutError String tot e).timeoutMs? = some tot := by
  refine ⟨?_, ?_, ?_, ?_, rfl, rfl⟩
  · intro h1 h2
    subst h2
    simp [attemptFetch, rejEnv, timeoutCfg, handleCatchWith, classifyException,
      retryAllowed, mapError, h1]
  · intro h1 h2 h3 h4
    subst h2; subst h4
    simp [attemptFetch, rejEnv, timeoutCfg, handleCatchWith, classifyException,
      retryAllowed, mapError, h1, h3]
  · intro h1
    simp [attemptFetch, rejEnv, timeoutCfg, handleCatchWith, classifyException,
      retryAllowed, mapError, h1]
  · intro h1 h2 h3
    subst h2
    rcases h3 with h3 | h3 <;> subst h3 <;>
      simp [attemptFetch, rejEnv, timeoutCfg, handleCatchWith, classifyException,
        retryAllowed, mapError, h1]

/-- Claim C8, witness: a non-abort transport exception is returned as a
Network error carrying the exception. -/
theorem abort_classification_witness :
    attemptFetch (timeoutCfg 5 7) [rejEnv ⟨"TypeError", "Failed to fetch"⟩ false false] 1 false =
      (.returned
        { ok := false,
          error? := some (networkError String ⟨"TypeError", "Failed to fetch"⟩) }, 1) :=
  (abort_classification 5 7 ⟨"TypeError", "Failed to fetch"⟩ false false).2.2.1 (by decide)

/-- Claim C10: for a non-GET/HEAD method and a defined body that is an
object other than FormData, `Content-Type: application/json` is added
exactly when no case-insensitively equal content-type key exists in the
merged headers; an existing content-type header of any letter case is
never overridden (the headers are left unchanged); and for GET and HEAD
no body is attached and no header is auto-added. -/
theorem contentType_header (method : HttpMethod) (v : V) (body : BodyVal V)
    (headers : List (String × String)) :
    (method ≠ .GET → method ≠ .HEAD → hasContentType headers = false →
      applyBodyHeaders method (BodyVal.obj v) headers =
        (headers ++ [("Content-Type", "application/json")], true)) ∧
    (hasContentType headers = true →
      (applyBodyHeaders method body headers).1 = headers) ∧
    (method = .GET ∨ method = .HEAD →
      applyBodyHeaders method body headers = (headers, false)) := by
  refine ⟨?_, ?_, ?_⟩
  · intro hg hh hct
    simp [applyBodyHeaders, BodyVal.isDefined, BodyVal.isPlainObject, hg, hh, hct]
  · intro hct
    unfold applyBodyHeaders
    split
    · cases body <;> simp [BodyVal.isPlainObject, hct]
    · rfl
  · rintro (h | h) <;> simp [applyBodyHeaders, h]

/-- Claim C10, witness: a POST with an object body and no content-type
header gets `Content-Type: application/json` appended. -/
theorem contentType_header_witness :
    applyBodyHeaders HttpMethod.POST (BodyVal.obj "payload") [("Accept", "text/plain")] =
      ([("Accept", "text/plain"), ("Content-Type", "application/json")], true) :=
  (contentType_header HttpMethod.POST "payload" (BodyVal.obj "payload")
    [("Accept", "text/plain")]).1 (by decide) (by decide) (by decide)

/-- Claim C5: with no custom retryOn predicate and budget remaining, the
default retry decision retries exactly for NetworkError/TimeoutError
outcomes, or responses with status ≥ 500 or status 429 — and it ignores
the HTTP method: a POST receiving a 503 under the default predicate is
retried (two transport invocations for a 503 followed by a 200). -/
theorem default_retry_decision (rc : RetryConfig String) (attempt : ℕ)
    (err : NormalizedError String) (res : Resp) (d : Option String)
    (hro : rc.retryOn? = none) (hbudget : attempt < rc.times) :
    (shouldRetry rc attempt ⟨attempt, some err, none, d⟩ =
      (err.name == "NetworkError" || err.name == "TimeoutError")) ∧
    (shouldRetry rc attempt ⟨attempt, none, some res, d⟩ =
      (decide (500 ≤ res.status) || decide (res.status = 429))) ∧
    attemptFetch postCfg503 [env503, okEnv "done"] 1 false =
      (.returned { ok := true, data? := some "done", response? := some respOK }, 2) := by
  refine ⟨?_, ?_, rfl⟩ <;>
    simp [shouldRetry, retryClassify, hro, not_le.mpr hbudget]

/-- Claim C5, witness: a NetworkError outcome is retryable by the default
decision, a 503 response is retryable, and the POST/503 call retries. -/
theorem default_retry_decision_witness :
    (shouldRetry ({ times := 2 } : RetryConfig String) 1
      ⟨1, some (networkError String ⟨"TypeError", "x"⟩), none, none⟩ =
      ((networkError String ⟨"TypeError", "x"⟩).name == "NetworkError" ||
        (networkError String ⟨"TypeError", "x"⟩).name == "TimeoutError")) ∧
    (shouldRetry ({ times := 2 } : RetryConfig String) 1 ⟨1, none, some resp503, none⟩ =
      (decide (500 ≤ resp503.status) || decide (resp503.status = 429))) ∧
    attemptFetch postCfg503 [env503, okEnv "done"] 1 false =
      (.returned { ok := true, data? := some "done", response? := some respOK }, 2) :=
  default_retry_decision { times := 2 } 1 (networkError String ⟨"TypeError", "x"⟩)
    resp503 none rfl (by norm_num)

/-- Claim C3, counterexample: with an error observer that throws, a call
short-circuiting on an already-fired external abort does not return its
normal tagged result — the observer's exception propagates out of the
engine and the logical call rejects. -/
theorem observer_throw_rejects :
    attemptFetch cfgThrowingHook [abortedEnv] 1 false = (.rejected hookExc, 0) := rfl

/-- Claim C3 (amended): a misbehaving error-mapping function is harmless:
if it throws, or returns a value that is not a recognizable
normalized-error shape, the original error is used unchanged, while a
returned normalized-error shape is adopted.  Observer hooks, however, are
not guarded: when the error observer throws, the short-circuit paths
propagate its exception and the logical call rejects instead of
returning its tagged result. -/
theorem mapError_defensive {V : Type} (f : NormalizedError V → MapBehavior V)
    (e e' : NormalizedError V) (ex : Exc) (cfg : EngineCfg V) (env : AttemptEnv V)
    (rest : List (AttemptEnv V)) (a : ℕ) (irr : Bool) :
    (f e = .thrown ex → mapError (some f) e = e) ∧
    (f e = .ret .nonError → mapError (some f) e = e) ∧
    (f e = .ret (.errShape e') → mapError (some f) e = e') ∧
    mapError none e = e ∧
    (cfg.onErrorThrow? = some ex → env.abortedAtStart = true →
      attemptFetch cfg (env :: rest) a irr = (.rejected ex, 0)) := by
  refine ⟨?_, ?_, ?_, rfl, ?_⟩
  · intro h; simp [mapError, h]
  · intro h; simp [mapError, h, isNormalizedError]
  · intro h; simp [mapError, h, isNormalizedError]
  · intro h1 h2
    simp [attemptFetch, finishErrTop, h1, h2]

/-- Claim C3, witness for the amended theorem: a throwing error mapper
preserves the original error, and a throwing error observer makes the
aborted short-circuit reject. -/
theorem mapError_defensive_witness :
    mapError (some throwingMap) (networkError String hookExc) = networkError String hookExc ∧
    attemptFetch cfgThrowingHook [abortedEnv] 1 false = (.rejected hookExc, 0) :=
  ⟨(mapError_defensive throwingMap (networkError String hookExc)
      (networkError String hookExc) hookExc cfgThrowingHook abortedEnv [] 1 false).1 rfl,
   (mapError_defensive throwingMap (networkError String hookExc)
      (networkError String hookExc) hookExc cfgThrowingHook abortedEnv [] 1 false).2.2.2.2
      rfl rfl⟩

/-- Claim C4, counterexample: a caller that joins an in-flight refresh
whose operation rejects does not get an HTTP failure for the original
401 response — the rejection escapes into the attempt's exception
handler and the call returns a synthetic Network error with no status. -/
theorem refresh_joiner_network_error :
    attemptFetch refreshCfg [joinEnv401] 1 false =
      (.returned
        { ok := false,
          error? := some (networkError String ⟨"Error", "Refresh failed"⟩) }, 1) ∧
    (networkError String ⟨"Error", "Refresh failed"⟩).name = "NetworkError" ∧
    (networkError String ⟨"Error", "Refresh failed"⟩).status? = none :=
  ⟨rfl, rfl, rfl⟩

/-- Claim C4 (amended): when the refresh operation rejects, the caller
that *started* the refresh returns an HTTP failure built from the
original non-2xx response, carrying that response's status; but a caller
that *joined* the already in-flight refresh promise sees the rejection
escape into its attempt's exception handler, where it is classified as a
Network error with no status (subject to the normal retry decision). -/
theorem refresh_reject_paths {V : Type} (cfg : EngineCfg V) (env : AttemptEnv V)
    (res : Resp) (parsed : V) (rest : List (AttemptEnv V)) (a : ℕ)
    (hclean : cleanEnv env = true)
    (hout : env.outcome = .resolve res parsed)
    (hok : res.okFlag = false)
    (htrig : refreshTrigger cfg false res = true)
    (hrej : env.refreshRejects = true)
    (hhook : cfg.onErrorThrow? = none) :
    (env.refreshInFlight = false →
      attemptFetch cfg (env :: rest) a false =
        (.returned
          { ok := false,
            error? := some (mapError cfg.errorMap? (httpError res parsed)),
            response? := some res }, 1) ∧
      (httpError res parsed).status? = some res.status) ∧
    (env.refreshInFlight = true → cfg.retries? = none →
      env.refreshError.name ≠ "AbortError" →
      attemptFetch cfg (env :: rest) a false =
        (.returned
          { ok := false,
            error? := some (mapError cfg.errorMap? (networkError V env.refreshError)) }, 1) ∧
      (networkError V env.refreshError).status? = none) := by
  obtain ⟨⟨h1, h2⟩, h3⟩ : (env.abortedAtStart = false ∧ env.exceededTotal = false) ∧
      env.abortedAfter = false := by simpa [cleanEnv] using hclean
  constructor
  · intro hifl
    refine ⟨?_, rfl⟩
    simp [attemptFetch, h1, h2, hout, hok, htrig, hifl, hrej, finishInTryWith, hhook]
  · intro hifl hretries hname
    refine ⟨?_, rfl⟩
    simp [attemptFetch, h1, h2, hout, hok, htrig, hifl, hrej, handleCatchWith,
      classifyException, retryAllowed, hretries, hhook, hname]

/-- Claim C4, witness for the amended theorem: the refresh starter whose
refresh rejects returns the HTTP failure for the original 401. -/
theorem refresh_reject_paths_witness :
    attemptFetch refreshCfg [startEnv401] 1 false =
      (.returned
        { ok := false,
          error? := some (mapError refreshCfg.errorMap? (httpError resp401 "denied")),
          response? := some resp401 }, 1) ∧
    (httpError resp401 "denied").status? = some resp401.status :=
  (refresh_reject_paths refreshCfg startEnv401 resp401 "denied" [] 1
    rfl rfl rfl rfl rfl rfl).1 rfl

/-- Claim C2: when an attempt yields a 2xx response while a custom
retryOn predicate is configured and accepts the parsed data (budget
remaining), the engine performs another attempt instead of returning; it
returns the success exactly when the predicate declines or the budget is
exhausted; in particular the polling scenario — times 5, retry while the
body is "pending", transport yielding "pending", "pending", "ready" —
performs exactly three transport invocations and returns success with
"ready". -/
theorem retry_on_success {V : Type} (cfg : EngineCfg V) (rc : RetryConfig V)
    (env : AttemptEnv V) (res : Resp) (parsed : V) (rest : List (AttemptEnv V))
    (a : ℕ) (irr : Bool)
    (hrc : cfg.retries? = some rc) (hro : rc.retryOn?.isSome = true)
    (hclean : cleanEnv env = true) (hout : env.outcome = .resolve res parsed)
    (hok : res.okFlag = true) :
    (shouldRetry rc a ⟨a, none, some res, some parsed⟩ = true →
      attemptFetch cfg (env :: rest) a irr =
        ((attemptFetch cfg rest (a + 1) irr).1, (attemptFetch cfg rest (a + 1) irr).2 + 1)) ∧
    (shouldRetry rc a ⟨a, none, some res, some parsed⟩ = false →
      attemptFetch cfg (env :: rest) a irr =
        (.returned { ok := true, data? := some parsed, response? := some res }, 1)) ∧
    attemptFetch pollCfg [okEnv "pending", okEnv "pending", okEnv "ready"] 1 false =
      (.returned { ok := true, data? := some "ready", response? := some respOK }, 3) := by
  obtain ⟨⟨h1, h2⟩, h3⟩ : (env.abortedAtStart = false ∧ env.exceededTotal = false) ∧
      env.abortedAfter = false := by simpa [cleanEnv] using hclean
  refine ⟨?_, ?_, rfl⟩ <;> intro hp <;>
    simp [attemptFetch, h1, h2, h3, hout, hok, successRetry, hrc, hro, hp]

/-- Claim C2, witness: a 200 "pending" under the polling predicate with
budget remaining performs another attempt instead of returning. -/
theorem retry_on_success_witness :
    attemptFetch pollCfg [okEnv "pending", okEnv "ready"] 1 false =
      ((attemptFetch pollCfg [okEnv "ready"] 2 false).1,
        (attemptFetch pollCfg [okEnv "ready"] 2 false).2 + 1) :=
  (retry_on_success pollCfg { times := 5, retryOn? := some pendingPred } (okEnv "pending")
    respOK "pending" [okEnv "ready"] 1 false rfl rfl rfl rfl rfl).1 rfl

/-- Deleting a key removes it: a subsequent lookup misses. -/
theorem mapGet_mapDelete (m : List (String × α)) (k : String) :
    mapGet (mapDelete m k) k = none := by
  induction m with
  | nil => rfl
  | cons kv rest ih =>
    by_cases h : kv.1 = k
    · simp [mapDelete, List.filter_cons, h]
      exact ih
    · simp [mapDelete, mapGet, List.filter_cons, List.find?_cons, h]

/-- Claim C7: for a cache-configured call, a lookup whose stored entry
satisfies `now - timestamp < cacheTime` hands the stored value to the
caller's stale-value callback before the fresh attempt begins — the
emission is determined by the cache alone, identical for every possible
sequence of transport outcomes — and leaves the cache unchanged, so a
second such read with no intervening store observes the same value; a
lookup at or after `cacheTime` never surfaces the stale value and
deletes the entry from the cache. -/
theorem cache_read {V : Type} (cc : CacheCfg) (t : ℕ)
    (cache : List (String × CacheEntry V)) (k : String) (now now' : ℕ)
    (entry : CacheEntry V)
    (hcc : cc.cacheTime? = some t) (hget : mapGet cache k = some entry) :
    ((now : ℤ) - (entry.timestamp : ℤ) < (t : ℤ) →
      cachePhase (some cc) false cache k now = (some entry.data, cache)) ∧
    ((now : ℤ) - (entry.timestamp : ℤ) < (t : ℤ) →
      (now' : ℤ) - (entry.timestamp : ℤ) < (t : ℤ) →
      (cachePhase (some cc) false (cachePhase (some cc) false cache k now).2 k now').1 =
        some entry.data) ∧
    ((t : ℤ) ≤ (now : ℤ) - (entry.timestamp : ℤ) →
      cachePhase (some cc) false cache k now = (none, mapDelete cache k) ∧
      mapGet (mapDelete cache k) k = none) ∧
    (∀ (cfg : EngineCfg V) (url : String) (envs envs' : List (AttemptEnv V)),
      (coreModel cfg (some cc) cache url now envs).1 =
        (coreModel cfg (some cc) cache url now envs').1) := by
  refine ⟨?_, ?_, ?_, ?_⟩
  · intro h
    simp [cachePhase, hget, hcc, h]
  · intro h h'
    simp [cachePhase, hget, hcc, h, h']
  · intro h
    have hnot : ¬ ((now : ℤ) - (entry.timestamp : ℤ) < (t : ℤ)) := not_lt.mpr h
    exact ⟨by simp [cachePhase, hget, hcc, hnot], mapGet_mapDelete cache k⟩
  · intro cfg url envs envs'
    rfl

/-- Claim C7, witness: an entry stored at time 1000 read at time 2000
with a 5000 ms time-to-live is surfaced unchanged. -/
theorem cache_read_witness :
    cachePhase (some ⟨some 5000⟩) false [("GET:/user", entryA)] "GET:/user" 2000 =
      (some entryA.data, [("GET:/user", entryA)]) :=
  (cache_read ⟨some 5000⟩ 5000 [("GET:/user", entryA)] "GET:/user" 2000 3000 entryA
    rfl rfl).1 (by decide)

/-- A short-circuit error site either rejects or returns an exclusive
error result. -/
theorem finishErrTop_fst {V : Type} (cfg : EngineCfg V) (err : NormalizedError V)
    (res? : Option Resp) (r : SafeResult V)
    (h : (finishErrTop cfg err res?).1 = .returned r) : exclusiveResult r := by
  simp only [finishErrTop] at h
  split at h
  · simp at h
  · simp at h
    subst h
    exact Or.inr ⟨rfl, rfl, rfl⟩

/-- The catch handler either passes control to the retry continuation or
returns an exclusive error result (or rejects). -/
theorem handleCatchWith_fst {V : Type} (cfg : EngineCfg V) (env : AttemptEnv V)
    (a : ℕ) (cont : RunOutcome V × ℕ) (e : Exc) (r : SafeResult V)
    (h : (handleCatchWith cfg env a cont e).1 = .returned r) :
    cont.1 = .returned r ∨ exclusiveResult r := by
  simp only [handleCatchWith] at h
  split at h
  · exact Or.inl h
  · split at h
    · simp at h
    · simp at h
      subst h
      exact Or.inr (Or.inr ⟨rfl, rfl, rfl⟩)

/-- A terminal error site inside the attempt's `try` block either passes
control to the retry continuation or returns an exclusive error result
(or rejects). -/
theorem finishInTryWith_fst {V : Type} (cfg : EngineCfg V) (env : AttemptEnv V)
    (a : ℕ) (cont : RunOutcome V × ℕ) (err : NormalizedError V) (res? : Option Resp)
    (r : SafeResult V)
    (h : (finishInTryWith cfg env a cont err res?).1 = .returned r) :
    cont.1 = .returned r ∨ exclusiveResult r := by
  simp only [finishInTryWith] at h
  split at h
  · exact handleCatchWith_fst _ _ _ _ _ _ h
  · simp at h
    subst h
    exact Or.inr (Or.inr ⟨rfl, rfl, rfl⟩)

/-- Claim C9: every tagged result the engine returns — for any
configuration, any sequence of transport outcomes, any starting attempt
index and refresh flag — has exactly one of success data and error
populated: an ok result carries data and a response and no error field,
a failed result carries a normalized error and no data field. -/
theorem result_exclusive {V : Type} (cfg : EngineCfg V) (envs : List (AttemptEnv V))
    (a : ℕ) (irr : Bool) (r : SafeResult V)
    (h : (attemptFetch cfg envs a irr).1 = .returned r) : exclusiveResult r := by
  induction envs generalizing a irr r with
  | nil => simp [attemptFetch] at h
  | cons env rest ih =>
    rw [attemptFetch] at h
    split at h
    · exact finishErrTop_fst _ _ _ _ h
    · split at h
      · exact finishErrTop_fst _ _ _ _ h
      · simp only at h
        split at h
        · rcases handleCatchWith_fst _ _ _ _ _ _ h with hcont | hex
          · exact ih _ _ _ hcont
          · exact hex
        · split at h
          · split at h
            · split at h
              · split at h
                · rcases handleCatchWith_fst _ _ _ _ _ _ h with hcont | hex
                  · exact ih _ _ _ hcont
                  · exact hex
                · exact ih _ _ _ h
              · split at h
                · rcases finishInTryWith_fst _ _ _ _ _ _ _ h with hcont | hex
                  · exact ih _ _ _ hcont
                  · exact hex
                · exact ih _ _ _ h
            · split at h
              · exact ih _ _ _ h
              · rcases finishInTryWith_fst _ _ _ _ _ _ _ h with hcont | hex
                · exact ih _ _ _ hcont
                · exact hex
          · split at h
            · exact ih _ _ _ h
            · simp at h
              subst h
              exact Or.inl ⟨rfl, rfl, rfl, rfl⟩

/-- Claim C9, witness: the result of a plain successful call is
exclusive. -/
theorem result_exclusive_witness :
    exclusiveResult
      ({ ok := true, data? := some "x", response? := some respOK } : SafeResult String) :=
  result_exclusive plainCfg [okEnv "x"] 1 false
    { ok := true, data? := some "x", response? := some respOK } rfl

/-- Budget-exhaustion invariant: starting at attempt `a` with
`|envs| + a = times + 1` and every remaining environment retryable, the
loop consumes exactly the remaining environments and returns. -/
theorem retry_budget_aux {V : Type} (cfg : EngineCfg V) (rc : RetryConfig V)
    (hrc : cfg.retries? = some rc) (href : cfg.refreshConfigured = false)
    (hhook : cfg.onErrorThrow? = none) :
    ∀ (envs : List (AttemptEnv V)) (a : ℕ), 1 ≤ a → a ≤ rc.times →
      envs.length + a = rc.times + 1 → allRetryable cfg rc a envs = true →
      isReturned (attemptFetch cfg envs a false).1 = true ∧
        (attemptFetch cfg envs a false).2 = envs.length := by
  intro envs
  induction envs with
  | nil =>
    intro a h1 h2 hlen _
    simp at hlen
    omega
  | cons env rest ih =>
    intro a h1 h2 hlen hall
    simp only [allRetryable, Bool.and_eq_true] at hall
    obtain ⟨⟨hcl, hbr⟩, hrest⟩ := hall
    obtain ⟨⟨he1, he2⟩, he3⟩ : (env.abortedAtStart = false ∧ env.exceededTotal = false) ∧
        env.abortedAfter = false := by simpa [cleanEnv] using hcl
    have hnotrig : ∀ res : Resp, refreshTrigger cfg false res = false := by
      intro res
      simp [refreshTrigger, href]
    simp only [List.length_cons] at hlen ⊢
    by_cases hterm : rc.times ≤ a
    · -- final attempt: the budget stops every retry decision
      have hrl : rest = [] := by
        have : rest.length = 0 := by omega
        simpa using this
      subst hrl
      have hsr : ∀ ctx : RetryCtx V, shouldRetry rc a ctx = false := by
        intro ctx
        simp [shouldRetry, hterm]
      rcases ho : env.outcome with ⟨res, parsed⟩ | e
      · by_cases hok : res.okFlag = true
        · constructor <;>
            simp [attemptFetch, he1, he2, he3, ho, hok, successRetry, hrc, hsr, isReturned]
        · have hok' : res.okFlag = false := by simpa using hok
          constructor <;>
            simp [attemptFetch, he1, he2, he3, ho, hok', hnotrig, retryAllowed, hrc, hsr,
              finishInTryWith, hhook, isReturned]
      · constructor <;>
          simp [attemptFetch, he1, he2, he3, ho, handleCatchWith, retryAllowed, hrc, hsr,
            hhook, isReturned]
    · -- budget remains: the attempt retries and the invariant recurses
      have hlt : a < rc.times := by omega
      have hih := ih (a + 1) (by omega) (by omega) (by omega) hrest
      rcases ho : env.outcome with ⟨res, parsed⟩ | e
      · by_cases hok : res.okFlag = true
        · have hbudget : rc.retryOn?.isSome = true ∧
              retryClassify rc ⟨a, none, some res, some parsed⟩ = true := by
            have := hbr
            simp only [budgetlessRetryable, ho, hok, Bool.not_true, Bool.false_eq_true,
              if_neg, Bool.and_eq_true] at this
            simpa using this
          have hsr : shouldRetry rc a ⟨a, none, some res, some parsed⟩ = true := by
            simp [shouldRetry, hterm, hbudget.2]
          have key : attemptFetch cfg (env :: rest) a false =
              ((attemptFetch cfg rest (a + 1) false).1,
                (attemptFetch cfg rest (a + 1) false).2 + 1) := by
            simp [attemptFetch, he1, he2, he3, ho, hok, successRetry, hrc, hbudget.1, hsr]
          rw [key]
          exact ⟨hih.1, by rw [hih.2]⟩
        · have hok' : res.okFlag = false := by simpa using hok
          have hbudget : retryClassify rc ⟨a, none, some res, none⟩ = true := by
            have := hbr
            simpa [budgetlessRetryable, ho, hok'] using this
          have hsr : shouldRetry rc a ⟨a, none, some res, none⟩ = true := by
            simp [shouldRetry, hterm, hbudget]
          have key : attemptFetch cfg (env :: rest) a false =
              ((attemptFetch cfg rest (a + 1) false).1,
                (attemptFetch cfg rest (a + 1) false).2 + 1) := by
            simp [attemptFetch, he1, he2, he3, ho, hok', hnotrig, retryAllowed, hrc, hsr]
          rw [key]
          exact ⟨hih.1, by rw [hih.2]⟩
      · have hbudget : retryClassify rc
            ⟨a, some (classifyException cfg e env.totalTimedOutFlag env.attemptTimedOutFlag),
              none, none⟩ = true := by
          have := hbr
          simpa [budgetlessRetryable, ho] using this
        have hsr : shouldRetry rc a
            ⟨a, some (classifyException cfg e env.totalTimedOutFlag env.attemptTimedOutFlag),
              none, none⟩ = true := by
          simp [shouldRetry, hterm, hbudget]
        have key : attemptFetch cfg (env :: rest) a false =
            ((attemptFetch cfg rest (a + 1) false).1,
              (attemptFetch cfg rest (a + 1) false).2 + 1) := by
          simp [attemptFetch, he1, he2, he3, ho, handleCatchWith, retryAllowed, hrc, hsr]
        rw [key]
        exact ⟨hih.1, by rw [hih.2]⟩

/-- Claim C1: for a retry configuration with `times = k` (k ≥ 1) whose
every attempt outcome is classified as retryable, the engine performs
exactly k transport invocations — never k + 1 — and returns; moreover the
retry decision is false whenever the 1-based attempt index reaches the
configured `times`, whatever the context, before any custom predicate or
default classification is consulted. -/
theorem retry_budget {V : Type} (cfg : EngineCfg V) (rc : RetryConfig V) (k : ℕ)
    (envs : List (AttemptEnv V))
    (hrc : cfg.retries? = some rc) (hk : rc.times = k) (h1 : 1 ≤ k)
    (href : cfg.refreshConfigured = false) (hhook : cfg.onErrorThrow? = none)
    (hlen : envs.length = k) (hall : allRetryable cfg rc 1 envs = true) :
    (isReturned (attemptFetch cfg envs 1 false).1 = true ∧
      (attemptFetch cfg envs 1 false).2 = k) ∧
    (∀ (a : ℕ) (ctx : RetryCtx V), rc.times ≤ a → shouldRetry rc a ctx = false) := by
  constructor
  · have h := retry_budget_aux cfg rc hrc href hhook envs 1 le_rfl (by omega) (by omega) hall
    exact ⟨h.1, by rw [h.2, hlen]⟩
  · intro a ctx ha
    simp [shouldRetry, ha]

/-- Claim C1, witness: `times = 2` with two consecutive 503 responses —
exactly two transport invocations, and a returned result. -/
theorem retry_budget_witness :
    isReturned (attemptFetch retry2Cfg [env503, env503] 1 false).1 = true ∧
      (attemptFetch retry2Cfg [env503, env503] 1 false).2 = 2 :=
  (retry_budget retry2Cfg { times := 2 } 2 [env503, env503] rfl rfl (by norm_num)
    rfl rfl rfl (by decide)).1

end ReFetch
